import Mathlib

/-!
BDAT sysfs module (`bdat.c`): shallow embedding and verified properties.

The module keeps three pieces of static state (`bdat_virt`, `bdat_size`,
`bdat_attr.size`).  Every call into the kernel (`acpi_get_table`,
`acpi_put_table`, `memremap`, `memunmap`, `sysfs_create_bin_file`,
`sysfs_remove_bin_file`) is recorded, in program order, in a list of events;
the answers of the kernel are supplied by an environment record.
Pointers are natural numbers, `0` is `NULL`.  Bytes are naturals reduced
modulo 256 on every load; `uint32_t` arithmetic is reduced modulo `2 ^ 32`.
-/

namespace Bdat

/-! ## Kernel constants and library routines used by `bdat.c` -/

/-- Modelled from the spec: the errno constant `ENODEV` comes from a kernel
header that is not in src/; only its sign matters to the properties below. -/
def ENODEV : Int := 19

/-- Modelled from the spec: the errno constant `EFAULT` comes from a kernel
header that is not in src/; only its sign matters to the properties below. -/
def EFAULT : Int := 14

/-- Modelled from the spec: `PAGE_SHIFT` is a platform constant defined in a
kernel header that is not in src/; the spec names 4096-byte pages. -/
def PAGE_SHIFT : Nat := 12

/-- Modelled from the spec: `PAGE_SIZE` is a platform constant defined in a
kernel header that is not in src/ ("a platform-defined page size, e.g. 4096
bytes"). -/
def PAGE_SIZE : Nat := 2 ^ PAGE_SHIFT

/-- Modelled from the spec: `PAGE_ALIGN` is a kernel macro that is not in
src/.  It is the page-aligned ceiling of its argument, computed as
`(x + (PAGE_SIZE - 1)) & ~(PAGE_SIZE - 1)` in the type of the argument; the
argument here is the `uint32_t` variable `bdat_size`, so both the sum and the
complemented mask live in 32 bits. -/
def PAGE_ALIGN (x : Nat) : Nat :=
  ((x + (PAGE_SIZE - 1)) % 2 ^ 32) &&& ((2 ^ 32 - 1) ^^^ (PAGE_SIZE - 1))

/-- One byte loaded from memory `mem` at address `a`. -/
def load_u8 (mem : Nat → Nat) (a : Nat) : Nat := mem a % 256

/-- Little-endian load of `n` bytes starting at address `a` (the module runs
on x86, so `*(uint64_t *)p` and a `u32` field are little-endian loads). -/
def load_le (mem : Nat → Nat) (a : Nat) : Nat → Nat
  | 0 => 0
  | n + 1 => load_u8 mem a + 256 * load_le mem (a + 1) n

/-- The C string literal `"BDATHEAD"`: eight ASCII bytes followed by NUL. -/
def BDATHEAD : Nat → Nat := fun i => [66, 68, 65, 84, 72, 69, 65, 68].getD i 0

/-- Modelled from the spec: `strncmp` is a C library routine that is not in
src/.  It walks both strings for at most `count` bytes, returns a non-zero
value at the first position where they differ and stops with 0 when both hold
NUL at the same position.  `cs` and `ct` give the byte at each index from the
two start pointers. -/
def strncmp (cs ct : Nat → Nat) : Nat → Int
  | 0 => 0
  | count + 1 =>
    let c1 := cs 0 % 256
    let c2 := ct 0 % 256
    if c1 ≠ c2 then (if c1 < c2 then -1 else 1)
    else if c1 = 0 then 0
    else strncmp (fun i => cs (i + 1)) (fun i => ct (i + 1)) count

/-- Modelled from the spec: `memory_read_from_buffer` is a kernel library
routine that is not in src/.  Following the ByteReader contract it clips the
request `[pos, pos + count)` to `[0, available)`, copies the bytes in the
intersection from `src + pos` to the start of the output buffer `dst` and returns
how many bytes it copied (zero when `pos ≥ available`).  The offset is a
non-negative `loff_t`, so it is a natural number here.  The result is the
return value and the output buffer after the call. -/
def memory_read_from_buffer (dst : Nat → Nat) (count pos : Nat) (vmem : Nat → Nat)
    (src available : Nat) : Int × (Nat → Nat) :=
  if pos ≥ available then (0, dst)
  else
    let count := if count > available - pos then available - pos else count
    (Int.ofNat count, fun i => if i < count then load_u8 vmem (src + pos + i) else dst i)

/-! ## State, events and environment -/

/-- The static variables of `bdat.c`: `bdat_virt` (0 is `NULL`), `bdat_size`
(a `uint32_t`) and the `size` field of `bdat_attr`. -/
structure Globals where
  bdat_virt : Nat
  bdat_size : Nat
  bdat_attr_size : Nat
  deriving DecidableEq, Repr

/-- Values of the statics when the module is loaded: `bdat_virt` and
`bdat_size` are zero-initialised, `bdat_attr.size` is initialised to 0. -/
def at_load : Globals := { bdat_virt := 0, bdat_size := 0, bdat_attr_size := 0 }

/-- Calls into the kernel, with their arguments and results. -/
inductive Event where
  | acpi_get_table (found : Bool)
  | acpi_put_table
  | memremap (offset size result : Nat)
  | memunmap (addr : Nat)
  | sysfs_create_bin_file (size : Nat) (ret : Int)
  | sysfs_remove_bin_file
  deriving DecidableEq, Repr

/-- The part of `struct acpi_table_header` that `init_bdat_sysfs` looks at:
the `length` field and the raw bytes of the table, indexed from its address. -/
structure acpi_table_header where
  length : Nat
  raw : Nat → Nat

/-- Answers of the kernel during one call of `init_bdat_sysfs`:
what `acpi_get_table("BDAT", 0, _)` yields (`none` for `ACPI_FAILURE`), the
pointer `memremap offset size` returns (0 for `NULL`), the bytes visible at
each virtual address, and the status of `sysfs_create_bin_file`.  The two
`memremap` calls of one run always differ in their size argument (see
`remap_length_ne_page_size`), so a function of the arguments can give them
independent answers. -/
structure Env where
  acpi_get_table : Option acpi_table_header
  memremap : Nat → Nat → Nat
  vmem : Nat → Nat
  sysfs_create_bin_file : Int

/-! ## The functions of the module -/

/-- Function `bdat_read` (bdat.c lines 31-50): result is the return value and
the caller's buffer after the call. -/
def bdat_read (g : Globals) (vmem : Nat → Nat) (buf : Nat → Nat) (offset count : Nat) :
    Int × (Nat → Nat) :=
  if g.bdat_size > 0 then
    memory_read_from_buffer buf count offset vmem g.bdat_virt g.bdat_size
  else (0, buf)

/-- Label `done:` of `init_bdat_sysfs` (lines 121-124): release the table and
return `ret`. -/
def label_done (ret : Int) (g : Globals) (tr : List Event) : Int × Globals × List Event :=
  (ret, g, tr ++ [Event.acpi_put_table])

/-- Lines 111-124 of `init_bdat_sysfs`: set `bdat_attr.size`, create the sysfs
file and, if that fails, unmap and reset `bdat_virt` and `bdat_size`. -/
def publish (e : Env) (g : Globals) (tr : List Event) : Int × Globals × List Event :=
  let g := { g with bdat_attr_size := g.bdat_size }
  let ret := e.sysfs_create_bin_file
  let tr := tr ++ [Event.sysfs_create_bin_file g.bdat_attr_size ret]
  if ret ≠ 0 then
    label_done ret { g with bdat_virt := 0, bdat_size := 0 } (tr ++ [Event.memunmap g.bdat_virt])
  else label_done ret g tr

/-- Function `init_bdat_sysfs` (bdat.c lines 64-125): result is the returned
status, the statics afterwards and the kernel calls made, in order. -/
def init_bdat_sysfs (e : Env) (g : Globals) : Int × Globals × List Event :=
  match e.acpi_get_table with
  | none => (-ENODEV, g, [Event.acpi_get_table false])
  | some table_header =>
    let tr := [Event.acpi_get_table true]
    if table_header.length ≠ 48 then label_done (-EFAULT) g tr else
    let bdat_phys_addr := load_le table_header.raw 40 8
    let g := { g with bdat_virt := e.memremap bdat_phys_addr PAGE_SIZE }
    let tr := tr ++ [Event.memremap bdat_phys_addr PAGE_SIZE g.bdat_virt]
    if g.bdat_virt = 0 then label_done (-EFAULT) g tr else
    if strncmp (fun i => e.vmem (g.bdat_virt + i)) BDATHEAD 8 ≠ 0 then
      label_done (-EFAULT) g tr
    else
    let g := { g with bdat_size := load_le e.vmem (g.bdat_virt + 8) 4 }
    if g.bdat_size > PAGE_SIZE then
      let tr := tr ++ [Event.memunmap g.bdat_virt]
      let g := { g with bdat_virt := e.memremap bdat_phys_addr (PAGE_ALIGN g.bdat_size) }
      let tr := tr ++ [Event.memremap bdat_phys_addr (PAGE_ALIGN g.bdat_size) g.bdat_virt]
      if g.bdat_virt = 0 then label_done (-EFAULT) g tr else publish e g tr
    else publish e g tr

/-- Function `bdat_init_module` (bdat.c lines 127-134): runs
`init_bdat_sysfs`, drops its status and returns 0, so the module stays loaded
whatever the outcome of the setup. -/
def bdat_init_module (e : Env) (g : Globals) : Int × Globals × List Event :=
  (0, (init_bdat_sysfs e g).2.1, (init_bdat_sysfs e g).2.2)

/-- Function `bdat_cleanup` (bdat.c lines 136-144): the statics afterwards
and the kernel calls made. -/
def bdat_cleanup (g : Globals) : Globals × List Event :=
  if g.bdat_virt ≠ 0 then
    (g, [Event.sysfs_remove_bin_file, Event.memunmap g.bdat_virt])
  else (g, [])

/-! ## Observations on the recorded kernel calls -/

/-- Mappings that are live after the calls in `tr`, starting from the live
mappings `acc`: a `memremap` that returned a non-NULL pointer adds it, a
`memunmap` removes its argument. -/
def live_mappings_from (acc : List Nat) : List Event → List Nat
  | [] => acc
  | Event.memremap _ _ result :: tr =>
    live_mappings_from (if result = 0 then acc else acc ++ [result]) tr
  | Event.memunmap addr :: tr => live_mappings_from (acc.erase addr) tr
  | _ :: tr => live_mappings_from acc tr

/-- Mappings that are live after the calls in `tr` when none was live before. -/
def live_mappings (tr : List Event) : List Nat := live_mappings_from [] tr

/-- Whether the sysfs file exists after the calls in `tr`, given whether it
existed before: a `sysfs_create_bin_file` that returned 0 creates it,
`sysfs_remove_bin_file` removes it. -/
def published_from (acc : Bool) : List Event → Bool
  | [] => acc
  | Event.sysfs_create_bin_file _ ret :: tr => published_from (if ret = 0 then true else acc) tr
  | Event.sysfs_remove_bin_file :: tr => published_from false tr
  | _ :: tr => published_from acc tr

/-- Whether the sysfs file exists after the calls in `tr` when it did not
exist before. -/
def published (tr : List Event) : Bool := published_from false tr

/-- Number of `acpi_put_table` calls in `tr`. -/
def put_calls (tr : List Event) : Nat := tr.count Event.acpi_put_table

/-- Whether an event is a `memremap` call. -/
def is_memremap : Event → Bool
  | Event.memremap _ _ _ => true
  | _ => false

/-- Whether an event is a `memunmap` call. -/
def is_memunmap : Event → Bool
  | Event.memunmap _ => true
  | _ => false

/-- Whether an event is a `sysfs_create_bin_file` call. -/
def is_sysfs_create : Event → Bool
  | Event.sysfs_create_bin_file _ _ => true
  | _ => false

/-- Number of unmap-then-remap steps in `tr`: positions where a `memunmap`
is immediately followed by a `memremap`. -/
def remap_steps : List Event → Nat
  | Event.memunmap _ :: Event.memremap o s r :: tr => 1 + remap_steps (Event.memremap o s r :: tr)
  | _ :: tr => remap_steps tr
  | [] => 0

/-! ## The exits of `init_bdat_sysfs` -/

/-- Physical address stored at byte offset 40 of the ACPI table (line 83). -/
def phys_addr (t : acpi_table_header) : Nat := load_le t.raw 40 8

/-- Pointer returned by the first `memremap` (line 86). -/
def first_map (e : Env) (t : acpi_table_header) : Nat := e.memremap (phys_addr t) PAGE_SIZE

/-- The field `BiosDataStructSize` read through the first mapping (line 99). -/
def declared_size (e : Env) (t : acpi_table_header) : Nat :=
  load_le e.vmem (first_map e t + 8) 4

/-- The seven ways `init_bdat_sysfs` can end. -/
inductive Outcome where
  | not_found
  | bad_length
  | map_failed
  | signature_mismatch
  | remap_failed
  | publish_failed
  | success
  deriving DecidableEq, Repr

/-- Which exit `init_bdat_sysfs` takes in environment `e`: the tests of lines
72, 77, 87, 94, 101/104 and 114, in that order. -/
def outcome (e : Env) : Outcome :=
  match e.acpi_get_table with
  | none => Outcome.not_found
  | some t =>
    if t.length ≠ 48 then Outcome.bad_length
    else if first_map e t = 0 then Outcome.map_failed
    else if strncmp (fun i => e.vmem (first_map e t + i)) BDATHEAD 8 ≠ 0 then
      Outcome.signature_mismatch
    else if declared_size e t > PAGE_SIZE ∧
        e.memremap (phys_addr t) (PAGE_ALIGN (declared_size e t)) = 0 then
      Outcome.remap_failed
    else if e.sysfs_create_bin_file ≠ 0 then Outcome.publish_failed
    else Outcome.success

/-! ## Concrete environments -/

/-- A 48-byte BDAT table whose bytes 40..47 hold the address 0x1000. -/
def table48 : acpi_table_header := { length := 48, raw := fun i => if i = 41 then 16 else 0 }

/-- Virtual memory holding, at address `base`, the eight bytes `sig` followed
by the little-endian 32-bit value `size`; every other byte is 0. -/
def payload_at (base : Nat) (sig : List Nat) (size : Nat) : Nat → Nat := fun a =>
  if a < base then 0
  else if a - base < 8 then sig.getD (a - base) 0
  else if a - base < 12 then (size / 256 ^ (a - base - 8)) % 256
  else 0

/-- The ASCII bytes of "BDATHEAD". -/
def sig_ok : List Nat := [66, 68, 65, 84, 72, 69, 65, 68]

/-- The ASCII bytes of "XDATHEAD": differs from the signature in byte 0. -/
def sig_bad : List Nat := [88, 68, 65, 84, 72, 69, 65, 68]

/-- The bytes "BDAT", a NUL, then "EAD": differs from the signature in byte 4
only, by a NUL. -/
def sig_nul : List Nat := [66, 68, 65, 84, 0, 69, 65, 68]

/-- Environment in which the table is found with length `len`, every
`memremap` returns the pointer 0x100000, the payload there starts with `sig`
and declares `size`, and `sysfs_create_bin_file` returns `ret`. -/
def env_with (len : Nat) (sig : List Nat) (size : Nat) (ret : Int) : Env :=
  { acpi_get_table := some { table48 with length := len }
    memremap := fun _ _ => 1048576
    vmem := payload_at 1048576 sig size
    sysfs_create_bin_file := ret }

/-- Environment in which `acpi_get_table` fails. -/
def env_no_table : Env :=
  { acpi_get_table := none
    memremap := fun _ _ => 1048576
    vmem := fun _ => 0
    sysfs_create_bin_file := 0 }

/-- Environment like `env_with 48 sig_ok size 0`, except that `memremap`
returns NULL for every length other than `PAGE_SIZE`. -/
def env_remap_fails (size : Nat) : Env :=
  { env_with 48 sig_ok size 0 with memremap := fun _ len => if len = 4096 then 1048576 else 0 }

/-! ## Facts about the library routines -/

/-- The literal "BDATHEAD" has no NUL among its first eight bytes. -/
theorem BDATHEAD_nonzero (i : Nat) (h : i < 8) : BDATHEAD i % 256 ≠ 0 := by
  interval_cases i <;> decide

/-- When `ct` has no NUL among its first `n` bytes, `strncmp cs ct n` is 0
exactly when the first `n` bytes of `cs` and `ct` agree. -/
theorem strncmp_eq_zero_iff (n : Nat) :
    ∀ (cs ct : Nat → Nat), (∀ i, i < n → ct i % 256 ≠ 0) →
      (strncmp cs ct n = 0 ↔ ∀ i, i < n → cs i % 256 = ct i % 256) := by
  induction n with
  | zero => intro cs ct _; simp [strncmp]
  | succ n ih =>
    intro cs ct hct
    have h0 : ct 0 % 256 ≠ 0 := hct 0 (Nat.succ_pos n)
    have ih1 := ih (fun i => cs (i + 1)) (fun i => ct (i + 1))
      (fun i hi => hct (i + 1) (Nat.succ_lt_succ hi))
    by_cases hc : cs 0 % 256 = ct 0 % 256
    · have hc0 : cs 0 % 256 ≠ 0 := by rw [hc]; exact h0
      have hstep : strncmp cs ct (n + 1) =
          strncmp (fun i => cs (i + 1)) (fun i => ct (i + 1)) n := by
        simp [strncmp, hc, h0]
      rw [hstep, ih1]
      constructor
      · intro h i hi
        cases i with
        | zero => exact hc
        | succ j => exact h j (Nat.lt_of_succ_lt_succ hi)
      · intro h i hi
        exact h (i + 1) (Nat.succ_lt_succ hi)
    · have hne : strncmp cs ct (n + 1) ≠ 0 := by
        simp only [strncmp, ne_eq, hc, not_false_eq_true, if_true]
        split <;> decide
      constructor
      · intro h; exact absurd h hne
      · intro h; exact absurd (h 0 (Nat.succ_pos n)) hc

/-- The signature test of line 94 passes exactly when the eight bytes at the
start of the mapping are the ASCII bytes of "BDATHEAD". -/
theorem signature_test_iff (vmem : Nat → Nat) (virt : Nat) :
    strncmp (fun i => vmem (virt + i)) BDATHEAD 8 = 0 ↔
      ∀ i, i < 8 → load_u8 vmem (virt + i) = BDATHEAD i := by
  rw [strncmp_eq_zero_iff 8 _ _ BDATHEAD_nonzero]
  constructor
  · intro h i hi
    have := h i hi
    simp only [load_u8]
    rw [this]
    interval_cases i <;> decide
  · intro h i hi
    have := h i hi
    simp only [load_u8] at this
    rw [this]
    interval_cases i <;> decide

/-- A little-endian load of `n` bytes is below `256 ^ n`. -/
theorem load_le_lt (mem : Nat → Nat) (n : Nat) : ∀ a, load_le mem a n < 256 ^ n := by
  induction n with
  | zero => intro a; simp [load_le]
  | succ n ih =>
    intro a
    have h1 := ih (a + 1)
    have h2 : load_u8 mem a < 256 := Nat.mod_lt _ (by decide)
    simp only [load_le, pow_succ]
    omega

/-- The declared size fits the `uint32_t` variable `bdat_size`. -/
theorem declared_size_lt (e : Env) (t : acpi_table_header) : declared_size e t < 2 ^ 32 := by
  have := load_le_lt e.vmem 4 (first_map e t + 8)
  simpa [declared_size] using this

/-! ## The exits of `init_bdat_sysfs`, one lemma per path -/

/-- Exit at line 74: the table is not found. -/
theorem init_not_found (e : Env) (g : Globals) (h : e.acpi_get_table = none) :
    init_bdat_sysfs e g = (-ENODEV, g, [Event.acpi_get_table false]) := by
  simp [init_bdat_sysfs, h]

/-- Exit through line 80: the table length is not 48. -/
theorem init_bad_length (e : Env) (g : Globals) (t : acpi_table_header)
    (h : e.acpi_get_table = some t) (hlen : t.length ≠ 48) :
    init_bdat_sysfs e g = (-EFAULT, g, [Event.acpi_get_table true, Event.acpi_put_table]) := by
  simp [init_bdat_sysfs, h, hlen, label_done]

/-- Exit through line 90: the first `memremap` returns NULL. -/
theorem init_map_failed (e : Env) (g : Globals) (t : acpi_table_header)
    (h : e.acpi_get_table = some t) (hlen : t.length = 48) (hmap : first_map e t = 0) :
    init_bdat_sysfs e g = (-EFAULT, { g with bdat_virt := 0 },
      [Event.acpi_get_table true, Event.memremap (phys_addr t) PAGE_SIZE 0,
       Event.acpi_put_table]) := by
  simp only [first_map, phys_addr] at hmap
  simp [init_bdat_sysfs, h, hlen, label_done, hmap, phys_addr]

/-- Exit through line 97: the signature test fails.  The mapping obtained at
line 86 is neither unmapped nor is `bdat_virt` reset. -/
theorem init_signature_mismatch (e : Env) (g : Globals) (t : acpi_table_header)
    (h : e.acpi_get_table = some t) (hlen : t.length = 48) (hmap : first_map e t ≠ 0)
    (hsig : strncmp (fun i => e.vmem (first_map e t + i)) BDATHEAD 8 ≠ 0) :
    init_bdat_sysfs e g = (-EFAULT, { g with bdat_virt := first_map e t },
      [Event.acpi_get_table true, Event.memremap (phys_addr t) PAGE_SIZE (first_map e t),
       Event.acpi_put_table]) := by
  simp only [first_map, phys_addr] at hmap hsig
  simp [init_bdat_sysfs, h, hlen, label_done, hmap, hsig, phys_addr, first_map]

/-- Lines 111-124 when `sysfs_create_bin_file` returns 0. -/
theorem publish_ok (e : Env) (g : Globals) (tr : List Event)
    (h : e.sysfs_create_bin_file = 0) :
    publish e g tr = (0, { g with bdat_attr_size := g.bdat_size },
      tr ++ [Event.sysfs_create_bin_file g.bdat_size 0, Event.acpi_put_table]) := by
  simp [publish, h, label_done]

/-- Lines 111-124 when `sysfs_create_bin_file` returns a non-zero status. -/
theorem publish_fail (e : Env) (g : Globals) (tr : List Event)
    (h : e.sysfs_create_bin_file ≠ 0) :
    publish e g tr = (e.sysfs_create_bin_file,
      { bdat_virt := 0, bdat_size := 0, bdat_attr_size := g.bdat_size },
      tr ++ [Event.sysfs_create_bin_file g.bdat_size e.sysfs_create_bin_file,
        Event.memunmap g.bdat_virt, Event.acpi_put_table]) := by
  simp [publish, h, label_done]

/-- Path through lines 99-111 without re-mapping: the declared size is at
most one page. -/
theorem init_small (e : Env) (g : Globals) (t : acpi_table_header)
    (h : e.acpi_get_table = some t) (hlen : t.length = 48) (hmap : first_map e t ≠ 0)
    (hsig : strncmp (fun i => e.vmem (first_map e t + i)) BDATHEAD 8 = 0)
    (hsz : declared_size e t ≤ PAGE_SIZE) :
    init_bdat_sysfs e g =
      publish e { g with bdat_virt := first_map e t, bdat_size := declared_size e t }
        [Event.acpi_get_table true, Event.memremap (phys_addr t) PAGE_SIZE (first_map e t)] := by
  have hsz2 : ¬ declared_size e t > PAGE_SIZE := Nat.not_lt.mpr hsz
  simp only [first_map, phys_addr, declared_size] at hmap hsig hsz2
  simp [init_bdat_sysfs, h, hlen, hmap, hsig, hsz2, phys_addr, first_map, declared_size]

/-- Exit through line 107: the declared size exceeds one page and the second
`memremap` returns NULL. -/
theorem init_remap_failed (e : Env) (g : Globals) (t : acpi_table_header)
    (h : e.acpi_get_table = some t) (hlen : t.length = 48) (hmap : first_map e t ≠ 0)
    (hsig : strncmp (fun i => e.vmem (first_map e t + i)) BDATHEAD 8 = 0)
    (hsz : declared_size e t > PAGE_SIZE)
    (hre : e.memremap (phys_addr t) (PAGE_ALIGN (declared_size e t)) = 0) :
    init_bdat_sysfs e g =
      (-EFAULT, { g with bdat_virt := 0, bdat_size := declared_size e t },
        [Event.acpi_get_table true, Event.memremap (phys_addr t) PAGE_SIZE (first_map e t),
         Event.memunmap (first_map e t),
         Event.memremap (phys_addr t) (PAGE_ALIGN (declared_size e t)) 0,
         Event.acpi_put_table]) := by
  simp only [first_map, phys_addr, declared_size] at hmap hsig hsz hre
  simp [init_bdat_sysfs, h, hlen, hmap, hsig, hsz, hre, phys_addr, first_map, declared_size,
    label_done]

/-- Path through lines 99-111 with a successful re-mapping: the declared size
exceeds one page. -/
theorem init_large (e : Env) (g : Globals) (t : acpi_table_header)
    (h : e.acpi_get_table = some t) (hlen : t.length = 48) (hmap : first_map e t ≠ 0)
    (hsig : strncmp (fun i => e.vmem (first_map e t + i)) BDATHEAD 8 = 0)
    (hsz : declared_size e t > PAGE_SIZE)
    (hre : e.memremap (phys_addr t) (PAGE_ALIGN (declared_size e t)) ≠ 0) :
    init_bdat_sysfs e g =
      publish e { g with
          bdat_virt := e.memremap (phys_addr t) (PAGE_ALIGN (declared_size e t)),
          bdat_size := declared_size e t }
        [Event.acpi_get_table true, Event.memremap (phys_addr t) PAGE_SIZE (first_map e t),
         Event.memunmap (first_map e t),
         Event.memremap (phys_addr t) (PAGE_ALIGN (declared_size e t))
           (e.memremap (phys_addr t) (PAGE_ALIGN (declared_size e t)))] := by
  simp only [first_map, phys_addr, declared_size] at hmap hsig hsz hre
  simp [init_bdat_sysfs, h, hlen, hmap, hsig, hsz, hre, phys_addr, first_map, declared_size]

/-- Every call of `init_bdat_sysfs` takes one of nine paths; for each the
exit taken, the returned status, the statics afterwards and the kernel calls
made are given in full. -/
theorem init_cases (e : Env) (g : Globals) :
    (e.acpi_get_table = none ∧ outcome e = Outcome.not_found ∧
      init_bdat_sysfs e g = (-ENODEV, g, [Event.acpi_get_table false])) ∨
    (∃ t, e.acpi_get_table = some t ∧
      ((t.length ≠ 48 ∧ outcome e = Outcome.bad_length ∧
        init_bdat_sysfs e g =
          (-EFAULT, g, [Event.acpi_get_table true, Event.acpi_put_table])) ∨
       (t.length = 48 ∧ first_map e t = 0 ∧ outcome e = Outcome.map_failed ∧
        init_bdat_sysfs e g = (-EFAULT, { g with bdat_virt := 0 },
          [Event.acpi_get_table true, Event.memremap (phys_addr t) PAGE_SIZE 0,
           Event.acpi_put_table])) ∨
       (t.length = 48 ∧ first_map e t ≠ 0 ∧
        strncmp (fun i => e.vmem (first_map e t + i)) BDATHEAD 8 ≠ 0 ∧
        outcome e = Outcome.signature_mismatch ∧
        init_bdat_sysfs e g = (-EFAULT, { g with bdat_virt := first_map e t },
          [Event.acpi_get_table true,
           Event.memremap (phys_addr t) PAGE_SIZE (first_map e t),
           Event.acpi_put_table])) ∨
       (t.length = 48 ∧ first_map e t ≠ 0 ∧
        strncmp (fun i => e.vmem (first_map e t + i)) BDATHEAD 8 = 0 ∧
        declared_size e t > PAGE_SIZE ∧
        e.memremap (phys_addr t) (PAGE_ALIGN (declared_size e t)) = 0 ∧
        outcome e = Outcome.remap_failed ∧
        init_bdat_sysfs e g =
          (-EFAULT, { g with bdat_virt := 0, bdat_size := declared_size e t },
            [Event.acpi_get_table true,
             Event.memremap (phys_addr t) PAGE_SIZE (first_map e t),
             Event.memunmap (first_map e t),
             Event.memremap (phys_addr t) (PAGE_ALIGN (declared_size e t)) 0,
             Event.acpi_put_table])) ∨
       (t.length = 48 ∧ first_map e t ≠ 0 ∧
        strncmp (fun i => e.vmem (first_map e t + i)) BDATHEAD 8 = 0 ∧
        declared_size e t ≤ PAGE_SIZE ∧ e.sysfs_create_bin_file ≠ 0 ∧
        outcome e = Outcome.publish_failed ∧
        init_bdat_sysfs e g =
          (e.sysfs_create_bin_file,
            { bdat_virt := 0, bdat_size := 0, bdat_attr_size := declared_size e t },
            [Event.acpi_get_table true,
             Event.memremap (phys_addr t) PAGE_SIZE (first_map e t),
             Event.sysfs_create_bin_file (declared_size e t) e.sysfs_create_bin_file,
             Event.memunmap (first_map e t),
             Event.acpi_put_table])) ∨
       (t.length = 48 ∧ first_map e t ≠ 0 ∧
        strncmp (fun i => e.vmem (first_map e t + i)) BDATHEAD 8 = 0 ∧
        declared_size e t ≤ PAGE_SIZE ∧ e.sysfs_create_bin_file = 0 ∧
        outcome e = Outcome.success ∧
        init_bdat_sysfs e g =
          (0,
            { bdat_virt := first_map e t, bdat_size := declared_size e t,
              bdat_attr_size := declared_size e t },
            [Event.acpi_get_table true,
             Event.memremap (phys_addr t) PAGE_SIZE (first_map e t),
             Event.sysfs_create_bin_file (declared_size e t) 0,
             Event.acpi_put_table])) ∨
       (t.length = 48 ∧ first_map e t ≠ 0 ∧
        strncmp (fun i => e.vmem (first_map e t + i)) BDATHEAD 8 = 0 ∧
        declared_size e t > PAGE_SIZE ∧
        e.memremap (phys_addr t) (PAGE_ALIGN (declared_size e t)) ≠ 0 ∧
        e.sysfs_create_bin_file ≠ 0 ∧
        outcome e = Outcome.publish_failed ∧
        init_bdat_sysfs e g =
          (e.sysfs_create_bin_file,
            { bdat_virt := 0, bdat_size := 0, bdat_attr_size := declared_size e t },
            [Event.acpi_get_table true,
             Event.memremap (phys_addr t) PAGE_SIZE (first_map e t),
             Event.memunmap (first_map e t),
             Event.memremap (phys_addr t) (PAGE_ALIGN (declared_size e t))
               (e.memremap (phys_addr t) (PAGE_ALIGN (declared_size e t))),
             Event.sysfs_create_bin_file (declared_size e t) e.sysfs_create_bin_file,
             Event.memunmap (e.memremap (phys_addr t) (PAGE_ALIGN (declared_size e t))),
             Event.acpi_put_table])) ∨
       (t.length = 48 ∧ first_map e t ≠ 0 ∧
        strncmp (fun i => e.vmem (first_map e t + i)) BDATHEAD 8 = 0 ∧
        declared_size e t > PAGE_SIZE ∧
        e.memremap (phys_addr t) (PAGE_ALIGN (declared_size e t)) ≠ 0 ∧
        e.sysfs_create_bin_file = 0 ∧
        outcome e = Outcome.success ∧
        init_bdat_sysfs e g =
          (0,
            { bdat_virt := e.memremap (phys_addr t) (PAGE_ALIGN (declared_size e t)),
              bdat_size := declared_size e t, bdat_attr_size := declared_size e t },
            [Event.acpi_get_table true,
             Event.memremap (phys_addr t) PAGE_SIZE (first_map e t),
             Event.memunmap (first_map e t),
             Event.memremap (phys_addr t) (PAGE_ALIGN (declared_size e t))
               (e.memremap (phys_addr t) (PAGE_ALIGN (declared_size e t))),
             Event.sysfs_create_bin_file (declared_size e t) 0,
             Event.acpi_put_table])))) := by
  cases hget : e.acpi_get_table with
  | none =>
    left
    exact ⟨rfl, by simp [outcome, hget], init_not_found e g hget⟩
  | some t =>
    right
    refine ⟨t, rfl, ?_⟩
    by_cases hlen : t.length = 48
    · by_cases hmap : first_map e t = 0
      · right; left
        exact ⟨hlen, hmap, by simp [outcome, hget, hlen, hmap],
          init_map_failed e g t hget hlen hmap⟩
      · by_cases hsig : strncmp (fun i => e.vmem (first_map e t + i)) BDATHEAD 8 = 0
        · by_cases hsz : declared_size e t > PAGE_SIZE
          · by_cases hre : e.memremap (phys_addr t) (PAGE_ALIGN (declared_size e t)) = 0
            · right; right; right; left
              exact ⟨hlen, hmap, hsig, hsz, hre,
                by simp [outcome, hget, hlen, hmap, hsig, hsz, hre],
                init_remap_failed e g t hget hlen hmap hsig hsz hre⟩
            · by_cases hpub : e.sysfs_create_bin_file = 0
              · right; right; right; right; right; right; right
                refine ⟨hlen, hmap, hsig, hsz, hre, hpub,
                  by simp [outcome, hget, hlen, hmap, hsig, hsz, hre, hpub], ?_⟩
                rw [init_large e g t hget hlen hmap hsig hsz hre, publish_ok e _ _ hpub]
                simp
              · right; right; right; right; right; right; left
                refine ⟨hlen, hmap, hsig, hsz, hre, hpub,
                  by simp [outcome, hget, hlen, hmap, hsig, hsz, hre, hpub], ?_⟩
                rw [init_large e g t hget hlen hmap hsig hsz hre, publish_fail e _ _ hpub]
                simp
          · have hsz2 : declared_size e t ≤ PAGE_SIZE := Nat.le_of_not_lt hsz
            by_cases hpub : e.sysfs_create_bin_file = 0
            · right; right; right; right; right; left
              refine ⟨hlen, hmap, hsig, hsz2, hpub,
                by simp [outcome, hget, hlen, hmap, hsig, hsz, hpub], ?_⟩
              rw [init_small e g t hget hlen hmap hsig hsz2, publish_ok e _ _ hpub]
              simp
            · right; right; right; right; left
              refine ⟨hlen, hmap, hsig, hsz2, hpub,
                by simp [outcome, hget, hlen, hmap, hsig, hsz, hpub], ?_⟩
              rw [init_small e g t hget hlen hmap hsig hsz2, publish_fail e _ _ hpub]
              simp
        · right; right; left
          exact ⟨hlen, hmap, hsig, by simp [outcome, hget, hlen, hmap, hsig],
            init_signature_mismatch e g t hget hlen hmap hsig⟩
    · left
      exact ⟨hlen, by simp [outcome, hget, hlen], init_bad_length e g t hget hlen⟩

/-! ## `PAGE_ALIGN` in 32 bits -/

/-- Clearing the low twelve bits of a 32-bit value rounds it down to a
multiple of 4096. -/
theorem and_high_mask (y : Nat) (hy : y < 2 ^ 32) :
    y &&& ((2 ^ 32 - 1) ^^^ (2 ^ 12 - 1)) = y / 4096 * 4096 := by
  have hm : ((2 ^ 32 - 1) ^^^ (2 ^ 12 - 1) : Nat) = (2 ^ 20 - 1) <<< 12 := by decide
  have hr : y / 4096 * 4096 = (y >>> 12) <<< 12 := by
    rw [Nat.shiftLeft_eq, Nat.shiftRight_eq_div_pow]
  rw [hm, hr]
  apply Nat.eq_of_testBit_eq
  intro j
  simp only [Nat.testBit_and, Nat.testBit_shiftLeft, Nat.testBit_shiftRight,
    Nat.testBit_two_pow_sub_one]
  by_cases h1 : 12 ≤ j
  · have e1 : 12 + (j - 12) = j := by omega
    by_cases h2 : j < 32
    · have : j - 12 < 20 := by omega
      simp [h1, e1, this]
    · have hj : y < 2 ^ j := lt_of_lt_of_le hy (Nat.pow_le_pow_right (by decide) (by omega))
      simp [h1, e1, Nat.testBit_lt_two_pow hj]
  · simp [h1]

/-- The page size of the model is 4096. -/
theorem PAGE_SIZE_eq : PAGE_SIZE = 4096 := by decide

/-- Arithmetic form of `PAGE_ALIGN`: add 4095 modulo `2 ^ 32`, then round
down to a multiple of 4096. -/
theorem PAGE_ALIGN_eq (x : Nat) : PAGE_ALIGN x = (x + 4095) % 2 ^ 32 / 4096 * 4096 := by
  have h := and_high_mask ((x + 4095) % 2 ^ 32) (Nat.mod_lt _ (by decide))
  simpa [PAGE_ALIGN, PAGE_SIZE, PAGE_SHIFT] using h

/-- For a size that leaves room for the rounding (`S + PAGE_SIZE ≤ 2 ^ 32`),
`PAGE_ALIGN S` is the least multiple of `PAGE_SIZE` that is at least `S`. -/
theorem PAGE_ALIGN_ceiling (S : Nat) (h : S + PAGE_SIZE ≤ 2 ^ 32) :
    PAGE_SIZE ∣ PAGE_ALIGN S ∧ S ≤ PAGE_ALIGN S ∧
      ∀ m, PAGE_SIZE ∣ m → S ≤ m → PAGE_ALIGN S ≤ m := by
  rw [PAGE_SIZE_eq] at h ⊢
  rw [PAGE_ALIGN_eq]
  have hlt : (S + 4095) % 2 ^ 32 = S + 4095 := Nat.mod_eq_of_lt (by omega)
  rw [hlt]
  refine ⟨Nat.dvd_mul_left _ _, by omega, ?_⟩
  intro m hm hSm
  obtain ⟨k, rfl⟩ := hm
  omega

/-- For a 32-bit size above `2 ^ 32 - PAGE_SIZE` the sum wraps around and
`PAGE_ALIGN` yields 0. -/
theorem PAGE_ALIGN_wraps (S : Nat) (h1 : 2 ^ 32 < S + PAGE_SIZE) (h2 : S < 2 ^ 32) :
    PAGE_ALIGN S = 0 := by
  rw [PAGE_SIZE_eq] at h1
  rw [PAGE_ALIGN_eq]
  omega

/-- The length of the re-map never equals `PAGE_SIZE`, the length of the first
mapping. -/
theorem remap_length_ne_page_size (S : Nat) (h1 : PAGE_SIZE < S) (h2 : S < 2 ^ 32) :
    PAGE_ALIGN S ≠ PAGE_SIZE := by
  rw [PAGE_SIZE_eq] at h1 ⊢
  rw [PAGE_ALIGN_eq]
  by_cases hw : S + 4095 < 2 ^ 32
  · rw [Nat.mod_eq_of_lt hw]; omega
  · omega

/-! ## Reading -/

/-- C1: when a mapping of length `L > 0` is stored (`bdat_size = L`),
`bdat_read` clips the request to `[0, L)`.  If `offset ≥ L` it returns 0 and
leaves the buffer as it was.  If `offset < L` and `offset + count > L` it
returns `L - offset`, the first `L - offset` bytes of the buffer are the
payload bytes `[offset, L)` and the rest of the buffer is untouched.  If
`offset + count ≤ L` it returns `count`, the first `count` bytes of the buffer
are the payload bytes `[offset, offset + count)` and the rest is untouched. -/
theorem bdat_read_clips (g : Globals) (vmem buf : Nat → Nat) (offset count : Nat)
    (hL : 0 < g.bdat_size) :
    (g.bdat_size ≤ offset → bdat_read g vmem buf offset count = (0, buf)) ∧
    (offset < g.bdat_size → g.bdat_size < offset + count →
      (bdat_read g vmem buf offset count).1 = Int.ofNat (g.bdat_size - offset) ∧
      (∀ i, i < g.bdat_size - offset →
        (bdat_read g vmem buf offset count).2 i = load_u8 vmem (g.bdat_virt + offset + i)) ∧
      (∀ i, g.bdat_size - offset ≤ i → (bdat_read g vmem buf offset count).2 i = buf i)) ∧
    (offset + count ≤ g.bdat_size →
      (bdat_read g vmem buf offset count).1 = Int.ofNat count ∧
      (∀ i, i < count →
        (bdat_read g vmem buf offset count).2 i = load_u8 vmem (g.bdat_virt + offset + i)) ∧
      (∀ i, count ≤ i → (bdat_read g vmem buf offset count).2 i = buf i)) := by
  refine ⟨?_, ?_, ?_⟩
  · intro h
    simp [bdat_read, hL, memory_read_from_buffer, h]
  · intro h1 h2
    have hn : ¬ offset ≥ g.bdat_size := Nat.not_le.mpr h1
    have hc : count > g.bdat_size - offset := by omega
    simp only [bdat_read, hL, memory_read_from_buffer, hn, hc, if_true, if_false]
    refine ⟨trivial, ?_, ?_⟩
    · intro i hi; simp [hi]
    · intro i hi
      have : ¬ i < g.bdat_size - offset := Nat.not_lt.mpr hi
      simp [this]
  · intro h
    by_cases h0 : offset ≥ g.bdat_size
    · have hc0 : count = 0 := by omega
      subst hc0
      simp [bdat_read, hL, memory_read_from_buffer, h0]
    · have hc : ¬ count > g.bdat_size - offset := by omega
      simp only [bdat_read, hL, memory_read_from_buffer, h0, hc, if_true, if_false]
      refine ⟨trivial, ?_, ?_⟩
      · intro i hi; simp [hi]
      · intro i hi
        have : ¬ i < count := Nat.not_lt.mpr hi
        simp [this]

/-- Witness for C1: with 4100 bytes stored, `read(4098, 10)` returns 2. -/
theorem bdat_read_clips_witness :
    (bdat_read ⟨1048576, 4100, 4100⟩ (payload_at 1048576 sig_ok 4100) (fun _ => 0) 4098 10).1
      = 2 :=
  ((bdat_read_clips ⟨1048576, 4100, 4100⟩ (payload_at 1048576 sig_ok 4100) (fun _ => 0)
    4098 10 (by decide)).2.1 (by decide) (by decide)).1

/-! ## Setup -/

/-- C2: when `init_bdat_sysfs` succeeds (returns 0) on a table `t`, the
stored length `bdat_size` and the published `bdat_attr.size` both equal the
declared struct size `S` exactly; no `memunmap` and no unmap-then-remap step
happens when `S ≤ PAGE_SIZE`, and exactly one `memunmap` and one
unmap-then-remap step happen when `S > PAGE_SIZE`. -/
theorem init_success_size (e : Env) (g : Globals) (t : acpi_table_header)
    (hget : e.acpi_get_table = some t) (hret : (init_bdat_sysfs e g).1 = 0) :
    (init_bdat_sysfs e g).2.1.bdat_size = declared_size e t ∧
    (init_bdat_sysfs e g).2.1.bdat_attr_size = declared_size e t ∧
    (declared_size e t ≤ PAGE_SIZE →
      remap_steps (init_bdat_sysfs e g).2.2 = 0 ∧
      ((init_bdat_sysfs e g).2.2).countP is_memunmap = 0 ∧
      ((init_bdat_sysfs e g).2.2).countP is_memremap = 1) ∧
    (declared_size e t > PAGE_SIZE →
      remap_steps (init_bdat_sysfs e g).2.2 = 1 ∧
      ((init_bdat_sysfs e g).2.2).countP is_memunmap = 1 ∧
      ((init_bdat_sysfs e g).2.2).countP is_memremap = 2) := by
  rcases init_cases e g with ⟨hn, _, _⟩ | ⟨t1, ht1, hc⟩
  · rw [hn] at hget; cases hget
  · rw [hget] at ht1
    cases ht1
    rcases hc with ⟨_, _, hi⟩ | ⟨_, _, _, hi⟩ | ⟨_, _, _, _, hi⟩ | ⟨_, _, _, _, _, _, hi⟩ |
      ⟨_, _, _, _, hp, _, hi⟩ | ⟨_, _, _, hs, _, _, hi⟩ | ⟨_, _, _, _, _, hp, _, hi⟩ |
      ⟨_, _, _, hs, _, _, _, hi⟩
    · rw [hi] at hret; simp [EFAULT] at hret
    · rw [hi] at hret; simp [EFAULT] at hret
    · rw [hi] at hret; simp [EFAULT] at hret
    · rw [hi] at hret; simp [EFAULT] at hret
    · rw [hi] at hret; exact absurd hret hp
    · rw [hi]
      have hs2 : ¬ declared_size e t > PAGE_SIZE := Nat.not_lt.mpr hs
      simp [hs, hs2, remap_steps, is_memunmap, is_memremap]
    · rw [hi] at hret; exact absurd hret hp
    · rw [hi]
      have hs2 : ¬ declared_size e t ≤ PAGE_SIZE := Nat.not_le.mpr hs
      simp [hs, hs2, remap_steps, is_memunmap, is_memremap]

/-- Witness for C2: a payload declaring 4100 bytes is re-mapped once and the
stored length is 4100, not 8192. -/
theorem init_success_size_witness :
    (init_bdat_sysfs (env_with 48 sig_ok 4100 0) at_load).2.1.bdat_size = 4100 ∧
    (init_bdat_sysfs (env_with 48 sig_ok 4100 0) at_load).2.1.bdat_attr_size = 4100 ∧
    remap_steps (init_bdat_sysfs (env_with 48 sig_ok 4100 0) at_load).2.2 = 1 :=
  have h := init_success_size (env_with 48 sig_ok 4100 0) at_load
    { table48 with length := 48 } rfl (by decide)
  ⟨h.1, h.2.1, (h.2.2.2 (by decide)).1⟩

/-- C5: when the resolved table header has a length other than 48 (for
instance 0, 47, 49 or 4096), `init_bdat_sysfs` returns the negative status
`-EFAULT`, makes no kernel call besides `acpi_get_table` and `acpi_put_table`
(so nothing is mapped or published) and leaves the statics as they were, so a
store that was Empty stays Empty; when the length is 48 the check lets the
call through to the first `memremap`. -/
theorem bad_length_rejected (e : Env) (g : Globals) (t : acpi_table_header)
    (hget : e.acpi_get_table = some t) :
    (t.length ≠ 48 →
      (init_bdat_sysfs e g).1 = -EFAULT ∧ (init_bdat_sysfs e g).1 < 0 ∧
      (init_bdat_sysfs e g).2.1 = g ∧
      (init_bdat_sysfs e g).2.2 = [Event.acpi_get_table true, Event.acpi_put_table] ∧
      ((init_bdat_sysfs e g).2.2).any is_memremap = false ∧
      ((init_bdat_sysfs e g).2.2).any is_sysfs_create = false ∧
      published (init_bdat_sysfs e g).2.2 = false ∧
      (init_bdat_sysfs e at_load).2.1.bdat_virt = 0 ∧
      (init_bdat_sysfs e at_load).2.1.bdat_size = 0) ∧
    (t.length = 48 →
      ∃ rest, (init_bdat_sysfs e g).2.2 =
        Event.acpi_get_table true ::
          Event.memremap (phys_addr t) PAGE_SIZE (first_map e t) :: rest) := by
  constructor
  · intro hlen
    rw [init_bad_length e g t hget hlen, init_bad_length e at_load t hget hlen]
    simp [EFAULT, is_memremap, is_sysfs_create, published, published_from, at_load]
  · intro hlen
    rcases init_cases e g with ⟨hn, _, _⟩ | ⟨t1, ht1, hc⟩
    · rw [hn] at hget; cases hget
    · rw [hget] at ht1
      cases ht1
      rcases hc with ⟨hl, _, _⟩ | ⟨_, hm, _, hi⟩ | ⟨_, _, _, _, hi⟩ | ⟨_, _, _, _, _, _, hi⟩ |
        ⟨_, _, _, _, _, _, hi⟩ | ⟨_, _, _, _, _, _, hi⟩ | ⟨_, _, _, _, _, _, _, hi⟩ |
        ⟨_, _, _, _, _, _, _, hi⟩
      · exact absurd hlen hl
      · rw [hi, hm]; exact ⟨_, rfl⟩
      all_goals (rw [hi]; exact ⟨_, rfl⟩)

/-- Witness for C5: a table of length 4096 is rejected with `-EFAULT` and only
the get and put calls are made. -/
theorem bad_length_rejected_witness :
    (init_bdat_sysfs (env_with 4096 sig_ok 100 0) at_load).1 = -EFAULT ∧
    (init_bdat_sysfs (env_with 4096 sig_ok 100 0) at_load).2.2 =
      [Event.acpi_get_table true, Event.acpi_put_table] :=
  have h := (bad_length_rejected (env_with 4096 sig_ok 100 0) at_load
    { table48 with length := 4096 } rfl).1 (by decide)
  ⟨h.1, h.2.2.2.1⟩

/-- C9: when `acpi_get_table` succeeds, `init_bdat_sysfs` calls
`acpi_put_table` exactly once, as its last kernel call, on every exit path;
when `acpi_get_table` fails it never calls `acpi_put_table`. -/
theorem acpi_put_table_exactly_once (e : Env) (g : Globals) :
    (∀ t, e.acpi_get_table = some t →
      put_calls (init_bdat_sysfs e g).2.2 = 1 ∧
      ((init_bdat_sysfs e g).2.2).getLast? = some Event.acpi_put_table ∧
      ((init_bdat_sysfs e g).2.2).head? = some (Event.acpi_get_table true)) ∧
    (e.acpi_get_table = none → put_calls (init_bdat_sysfs e g).2.2 = 0) := by
  rcases init_cases e g with ⟨hn, _, hi⟩ | ⟨t1, ht1, hc⟩
  · refine ⟨fun t ht => ?_, fun _ => ?_⟩
    · rw [hn] at ht; cases ht
    · rw [hi]; simp [put_calls]
  · refine ⟨fun t _ => ?_, fun hn => ?_⟩
    · rcases hc with ⟨_, _, hi⟩ | ⟨_, _, _, hi⟩ | ⟨_, _, _, _, hi⟩ | ⟨_, _, _, _, _, _, hi⟩ |
        ⟨_, _, _, _, _, _, hi⟩ | ⟨_, _, _, _, _, _, hi⟩ | ⟨_, _, _, _, _, _, _, hi⟩ |
        ⟨_, _, _, _, _, _, _, hi⟩
      all_goals (rw [hi]; simp [put_calls])
    · rw [hn] at ht1; cases ht1

/-- Witness for C9: on the successful path with a re-map the table is
released once; when the table is not found it is never released. -/
theorem acpi_put_table_exactly_once_witness :
    put_calls (init_bdat_sysfs (env_with 48 sig_ok 4100 0) at_load).2.2 = 1 ∧
    put_calls (init_bdat_sysfs env_no_table at_load).2.2 = 0 :=
  ⟨((acpi_put_table_exactly_once (env_with 48 sig_ok 4100 0) at_load).1 _ rfl).1,
   (acpi_put_table_exactly_once env_no_table at_load).2 rfl⟩

/-- Function `bdat_cleanup` writes to none of the statics. -/
theorem bdat_cleanup_statics (g : Globals) : (bdat_cleanup g).1 = g := by
  unfold bdat_cleanup; split <;> rfl

/-- After `init_bdat_sysfs` from the load-time state the sysfs file exists
exactly when the call returned 0, and then `bdat_attr.size` equals
`bdat_size`. -/
theorem published_iff_success (e : Env) :
    (published (init_bdat_sysfs e at_load).2.2 = true ↔ (init_bdat_sysfs e at_load).1 = 0) ∧
    (published (init_bdat_sysfs e at_load).2.2 = true →
      (init_bdat_sysfs e at_load).2.1.bdat_attr_size =
        (init_bdat_sysfs e at_load).2.1.bdat_size) := by
  rcases init_cases e at_load with ⟨_, _, hi⟩ | ⟨t1, _, hc⟩
  · rw [hi]; simp [published, published_from, ENODEV]
  · rcases hc with ⟨_, _, hi⟩ | ⟨_, _, _, hi⟩ | ⟨_, _, _, _, hi⟩ | ⟨_, _, _, _, _, _, hi⟩ |
      ⟨_, _, _, _, hp, _, hi⟩ | ⟨_, _, _, _, _, _, hi⟩ | ⟨_, _, _, _, _, hp, _, hi⟩ |
      ⟨_, _, _, _, _, _, _, hi⟩
    all_goals (rw [hi]; simp [published, published_from, EFAULT, *])

/-- After a failed `init_bdat_sysfs` from the load-time state, a mapping is
still live exactly on the signature-mismatch exit; on the re-map failure and
publish failure exits every mapping has been unmapped. -/
theorem live_after_failure (e : Env) (hret : (init_bdat_sysfs e at_load).1 ≠ 0) :
    (outcome e = Outcome.signature_mismatch →
      live_mappings (init_bdat_sysfs e at_load).2.2 ≠ []) ∧
    (outcome e ≠ Outcome.signature_mismatch →
      live_mappings (init_bdat_sysfs e at_load).2.2 = []) := by
  rcases init_cases e at_load with ⟨_, ho, hi⟩ | ⟨t1, _, hc⟩
  · rw [hi, ho]; simp [live_mappings, live_mappings_from]
  · rcases hc with ⟨_, ho, hi⟩ | ⟨_, _, ho, hi⟩ | ⟨_, hm, _, ho, hi⟩ |
      ⟨_, hm, _, _, _, ho, hi⟩ | ⟨_, hm, _, _, hp, ho, hi⟩ | ⟨_, hm, _, _, _, ho, hi⟩ |
      ⟨_, hm, _, _, hr, hp, ho, hi⟩ | ⟨_, hm, _, _, hr, _, ho, hi⟩
    · rw [hi, ho]; simp [live_mappings, live_mappings_from]
    · rw [hi, ho]; simp [live_mappings, live_mappings_from]
    · rw [hi, ho]; simp [live_mappings, live_mappings_from, hm]
    · rw [hi, ho]; simp [live_mappings, live_mappings_from, hm]
    · rw [hi, ho]; simp [live_mappings, live_mappings_from, hm]
    · rw [hi] at hret; exact absurd rfl hret
    · rw [hi, ho]; simp [live_mappings, live_mappings_from, hm, hr]
    · rw [hi] at hret; exact absurd rfl hret

/-- C10: whenever the store is Empty (`bdat_size = 0`), `bdat_read` returns 0
and leaves the buffer untouched for every offset and count.  The size of the
resource is 0 at load time; after `init_bdat_sysfs` from the load-time state,
if `bdat_size = 0` and the sysfs file exists then the size it reports,
`bdat_attr.size`, is 0.  More precisely, with `bdat_size = 0` the field
`bdat_attr.size` is 0 unless the call ended in a publish failure, in which
case no sysfs file exists.  After `bdat_cleanup` the file no longer exists. -/
theorem empty_store_reads_nothing (e : Env) (g : Globals) (vmem buf : Nat → Nat)
    (offset count : Nat) (h : g.bdat_size = 0) :
    bdat_read g vmem buf offset count = (0, buf) ∧
    at_load.bdat_attr_size = 0 ∧
    ((init_bdat_sysfs e at_load).2.1.bdat_size = 0 →
      published (init_bdat_sysfs e at_load).2.2 = true →
      (init_bdat_sysfs e at_load).2.1.bdat_attr_size = 0) ∧
    ((init_bdat_sysfs e at_load).2.1.bdat_size = 0 →
      (init_bdat_sysfs e at_load).2.1.bdat_attr_size = 0 ∨
      (outcome e = Outcome.publish_failed ∧
        published (init_bdat_sysfs e at_load).2.2 = false)) ∧
    published ((init_bdat_sysfs e at_load).2.2 ++
      (bdat_cleanup (init_bdat_sysfs e at_load).2.1).2) = false := by
  refine ⟨by simp [bdat_read, h], rfl, ?_, ?_, ?_⟩
  · intro hz hp
    rw [(published_iff_success e).2 hp]
    exact hz
  · rcases init_cases e at_load with ⟨_, _, hi⟩ | ⟨t1, _, hc⟩
    · rw [hi]; simp [at_load]
    · rcases hc with ⟨_, _, hi⟩ | ⟨_, _, _, hi⟩ | ⟨_, _, _, _, hi⟩ | ⟨_, _, _, _, _, _, hi⟩ |
        ⟨_, _, _, _, hp, ho, hi⟩ | ⟨_, _, _, _, _, _, hi⟩ | ⟨_, _, _, _, _, hp, ho, hi⟩ |
        ⟨_, _, _, _, _, _, _, hi⟩
      · rw [hi]; simp [at_load]
      · rw [hi]; simp [at_load]
      · rw [hi]; simp [at_load]
      · rw [hi]; simp [at_load]
      · rw [hi]; intro _; right; exact ⟨ho, by simp [published, published_from, hp]⟩
      · rw [hi]; intro hz; left; exact hz
      · rw [hi]; intro _; right; exact ⟨ho, by simp [published, published_from, hp]⟩
      · rw [hi]; intro hz; left; exact hz
  · rcases init_cases e at_load with ⟨_, _, hi⟩ | ⟨t1, _, hc⟩
    · rw [hi]; simp [published, published_from, bdat_cleanup, at_load]
    · rcases hc with ⟨_, _, hi⟩ | ⟨_, _, _, hi⟩ | ⟨_, hm, _, _, hi⟩ | ⟨_, _, _, _, _, _, hi⟩ |
        ⟨_, _, _, _, hp, _, hi⟩ | ⟨_, hm, _, _, _, _, hi⟩ | ⟨_, _, _, _, _, hp, _, hi⟩ |
        ⟨_, _, _, _, hm, _, _, hi⟩
      all_goals (rw [hi]; simp [published, published_from, bdat_cleanup, at_load, *])

/-- Witness for C10: a payload declaring size 0 is published with size 0 and
reads of it return 0. -/
theorem empty_store_reads_nothing_witness :
    bdat_read (init_bdat_sysfs (env_with 48 sig_ok 0 0) at_load).2.1
      (payload_at 1048576 sig_ok 0) (fun _ => 7) 0 8 = (0, fun _ => 7) ∧
    (init_bdat_sysfs (env_with 48 sig_ok 0 0) at_load).2.1.bdat_attr_size = 0 :=
  have h := empty_store_reads_nothing (env_with 48 sig_ok 0 0)
    (init_bdat_sysfs (env_with 48 sig_ok 0 0) at_load).2.1
    (payload_at 1048576 sig_ok 0) (fun _ => 7) 0 8 (by decide)
  ⟨h.1, h.2.2.1 (by decide) (by decide)⟩

/-! ## Teardown -/

/-- C6 (counterexample): after a successful setup, the first `bdat_cleanup`
leaves `bdat_virt` non-NULL and the second `bdat_cleanup` again calls
`sysfs_remove_bin_file` and `memunmap`. -/
theorem cleanup_twice_repeats :
    (bdat_cleanup (init_bdat_sysfs (env_with 48 sig_ok 100 0) at_load).2.1).1.bdat_virt ≠ 0 ∧
    (bdat_cleanup
      (bdat_cleanup (init_bdat_sysfs (env_with 48 sig_ok 100 0) at_load).2.1).1).2 =
      [Event.sysfs_remove_bin_file, Event.memunmap 1048576] := by
  decide

/-- C6 (amended): `bdat_cleanup` never changes the statics.  When `bdat_virt`
is NULL a call makes no kernel call, so two calls in succession are both
no-ops.  When `bdat_virt` is non-NULL a call makes exactly the calls
`sysfs_remove_bin_file` and `memunmap(bdat_virt)`, and a second call makes
them again. -/
theorem bdat_cleanup_calls (g : Globals) :
    (bdat_cleanup g).1 = g ∧
    (g.bdat_virt = 0 →
      (bdat_cleanup g).2 = [] ∧ bdat_cleanup (bdat_cleanup g).1 = (g, [])) ∧
    (g.bdat_virt ≠ 0 →
      (bdat_cleanup g).2 = [Event.sysfs_remove_bin_file, Event.memunmap g.bdat_virt] ∧
      (bdat_cleanup (bdat_cleanup g).1).2 =
        [Event.sysfs_remove_bin_file, Event.memunmap g.bdat_virt]) := by
  refine ⟨?_, ?_, ?_⟩
  · unfold bdat_cleanup; split <;> rfl
  · intro h; simp [bdat_cleanup, h]
  · intro h; simp [bdat_cleanup, h]

/-- Witness for C6 (amended): after a setup that failed on the table length,
two calls of `bdat_cleanup` make no kernel call. -/
theorem bdat_cleanup_calls_witness :
    (bdat_cleanup (init_bdat_sysfs (env_with 47 sig_ok 100 0) at_load).2.1).2 = [] ∧
    bdat_cleanup (bdat_cleanup (init_bdat_sysfs (env_with 47 sig_ok 100 0) at_load).2.1).1 =
      ((init_bdat_sysfs (env_with 47 sig_ok 100 0) at_load).2.1, []) :=
  (bdat_cleanup_calls (init_bdat_sysfs (env_with 47 sig_ok 100 0) at_load).2.1).2.1
    (by decide)

/-! ## The size counter and the mapping -/

/-- C7 (counterexample): a payload with a valid signature that declares size
0 is set up successfully; afterwards `bdat_size` is 0 although `bdat_virt`
holds a live mapping. -/
theorem size_zero_with_mapping :
    (init_bdat_sysfs (env_with 48 sig_ok 0 0) at_load).1 = 0 ∧
    ¬ ((init_bdat_sysfs (env_with 48 sig_ok 0 0) at_load).2.1.bdat_size = 0 ↔
       (init_bdat_sysfs (env_with 48 sig_ok 0 0) at_load).2.1.bdat_virt = 0) ∧
    live_mappings (init_bdat_sysfs (env_with 48 sig_ok 0 0) at_load).2.2 = [1048576] := by
  decide

/-- C7 (amended): after `init_bdat_sysfs` from the load-time state, on every
exit other than the signature mismatch and the re-map failure, and unless the
call succeeded with a declared size of 0, `bdat_size` is zero if and only if
`bdat_virt` is NULL, which in turn holds if and only if no mapping is live;
`bdat_cleanup` changes neither variable. -/
theorem size_zero_iff_no_mapping (e : Env)
    (h1 : outcome e ≠ Outcome.signature_mismatch) (h2 : outcome e ≠ Outcome.remap_failed)
    (h3 : ∀ t, e.acpi_get_table = some t → outcome e = Outcome.success →
      declared_size e t ≠ 0) :
    ((init_bdat_sysfs e at_load).2.1.bdat_size = 0 ↔
      (init_bdat_sysfs e at_load).2.1.bdat_virt = 0) ∧
    ((init_bdat_sysfs e at_load).2.1.bdat_virt = 0 ↔
      live_mappings (init_bdat_sysfs e at_load).2.2 = []) ∧
    (bdat_cleanup (init_bdat_sysfs e at_load).2.1).1 = (init_bdat_sysfs e at_load).2.1 := by
  refine ⟨?_, ?_, bdat_cleanup_statics _⟩
  · rcases init_cases e at_load with ⟨_, _, hi⟩ | ⟨t1, ht1, hc⟩
    · rw [hi]; simp [at_load]
    · rcases hc with ⟨_, _, hi⟩ | ⟨_, _, _, hi⟩ | ⟨_, _, _, ho, _⟩ |
        ⟨_, _, _, _, _, ho, _⟩ | ⟨_, _, _, _, _, _, hi⟩ | ⟨_, hm, _, _, _, ho, hi⟩ |
        ⟨_, _, _, _, _, _, _, hi⟩ | ⟨_, _, _, _, hr, _, ho, hi⟩
      · rw [hi]; simp [at_load]
      · rw [hi]; simp [at_load]
      · exact absurd ho h1
      · exact absurd ho h2
      · rw [hi]
      · rw [hi]; simp [hm, h3 t1 ht1 ho]
      · rw [hi]
      · rw [hi]; simp [hr, h3 t1 ht1 ho]
  · rcases init_cases e at_load with ⟨_, _, hi⟩ | ⟨t1, ht1, hc⟩
    · rw [hi]; simp [at_load, live_mappings, live_mappings_from]
    · rcases hc with ⟨_, _, hi⟩ | ⟨_, _, _, hi⟩ | ⟨_, _, _, ho, _⟩ |
        ⟨_, _, _, _, _, ho, _⟩ | ⟨_, hm, _, _, _, _, hi⟩ | ⟨_, hm, _, _, _, _, hi⟩ |
        ⟨_, hm, _, _, hr, _, _, hi⟩ | ⟨_, hm, _, _, hr, _, _, hi⟩
      · rw [hi]; simp [at_load, live_mappings, live_mappings_from]
      · rw [hi]; simp [at_load, live_mappings, live_mappings_from]
      · exact absurd ho h1
      · exact absurd ho h2
      · rw [hi]; simp [live_mappings, live_mappings_from, hm]
      · rw [hi]; simp [live_mappings, live_mappings_from, hm]
      · rw [hi]; simp [live_mappings, live_mappings_from, hm, hr]
      · rw [hi]; simp [live_mappings, live_mappings_from, hm, hr]

/-- Witness for C7 (amended): after a publish failure both `bdat_size` and
`bdat_virt` are zero and no mapping is live. -/
theorem size_zero_iff_no_mapping_witness :
    ((init_bdat_sysfs (env_with 48 sig_ok 100 (-17)) at_load).2.1.bdat_size = 0 ↔
      (init_bdat_sysfs (env_with 48 sig_ok 100 (-17)) at_load).2.1.bdat_virt = 0) ∧
    ((init_bdat_sysfs (env_with 48 sig_ok 100 (-17)) at_load).2.1.bdat_virt = 0 ↔
      live_mappings (init_bdat_sysfs (env_with 48 sig_ok 100 (-17)) at_load).2.2 = []) :=
  have h := size_zero_iff_no_mapping (env_with 48 sig_ok 100 (-17)) (by decide) (by decide)
    (fun _ _ ho => absurd ho (by decide))
  ⟨h.1, h.2.1⟩

/-! ## Failure paths that keep state -/

/-- C3 (evaluation at the failing input): with a payload whose first eight
bytes are "BDAT", NUL, "EAD", `init_bdat_sysfs` returns `-EFAULT`, publishes
nothing and leaves `bdat_size` at 0, but it makes no `memunmap` call and
`bdat_virt` keeps the pointer of the one-page mapping. -/
theorem signature_mismatch_keeps_bdat_virt :
    (init_bdat_sysfs (env_with 48 sig_nul 100 0) at_load).1 = -EFAULT ∧
    published (init_bdat_sysfs (env_with 48 sig_nul 100 0) at_load).2.2 = false ∧
    (init_bdat_sysfs (env_with 48 sig_nul 100 0) at_load).2.1.bdat_size = 0 ∧
    (init_bdat_sysfs (env_with 48 sig_nul 100 0) at_load).2.1.bdat_virt = 1048576 ∧
    ((init_bdat_sysfs (env_with 48 sig_nul 100 0) at_load).2.2).countP is_memunmap = 0 := by
  decide

/-- C4 (evaluation at the failing input): with a payload that starts with
"XDATHEAD", `init_bdat_sysfs` fails after the first `memremap` succeeded and
returns with that mapping still live: the only kernel calls are the get, the
`memremap` and the put. -/
theorem signature_mismatch_leaks_mapping :
    (init_bdat_sysfs (env_with 48 sig_bad 4100 0) at_load).1 < 0 ∧
    (init_bdat_sysfs (env_with 48 sig_bad 4100 0) at_load).2.2 =
      [Event.acpi_get_table true, Event.memremap 4096 4096 1048576, Event.acpi_put_table] ∧
    live_mappings (init_bdat_sysfs (env_with 48 sig_bad 4100 0) at_load).2.2 = [1048576] := by
  decide

/-- After a signature mismatch the module stays loaded, and the
`bdat_cleanup` that runs at unload finds `bdat_virt` non-NULL: it calls
`sysfs_remove_bin_file` although no file was ever created, and only then
unmaps the page that `init_bdat_sysfs` left mapped. -/
theorem signature_mismatch_then_cleanup (e : Env) (h : outcome e = Outcome.signature_mismatch) :
    (bdat_init_module e at_load).1 = 0 ∧
    published (bdat_init_module e at_load).2.2 = false ∧
    ∃ v, v ≠ 0 ∧ (bdat_init_module e at_load).2.1.bdat_virt = v ∧
      live_mappings (bdat_init_module e at_load).2.2 = [v] ∧
      (bdat_cleanup (bdat_init_module e at_load).2.1).2 =
        [Event.sysfs_remove_bin_file, Event.memunmap v] := by
  rcases init_cases e at_load with ⟨_, ho, _⟩ | ⟨t1, _, hc⟩
  · rw [ho] at h; cases h
  · rcases hc with ⟨_, ho, _⟩ | ⟨_, _, ho, _⟩ | ⟨_, hm, _, _, hi⟩ |
      ⟨_, _, _, _, _, ho, _⟩ | ⟨_, _, _, _, _, ho, _⟩ | ⟨_, _, _, _, _, ho, _⟩ |
      ⟨_, _, _, _, _, _, ho, _⟩ | ⟨_, _, _, _, _, _, ho, _⟩
    · rw [ho] at h; cases h
    · rw [ho] at h; cases h
    · refine ⟨rfl, ?_, first_map e t1, hm, ?_, ?_, ?_⟩
      · simp [bdat_init_module, hi, published, published_from]
      · simp [bdat_init_module, hi]
      · simp [bdat_init_module, hi, live_mappings, live_mappings_from, hm]
      · simp [bdat_init_module, hi, bdat_cleanup, hm]
    all_goals (rw [ho] at h; cases h)

/-- After a failed re-map of a payload declaring 5000 bytes, `bdat_virt` is
NULL and no mapping is live, but `bdat_size` still holds 5000: lines 104-107
do not reset it. -/
theorem remap_failure_keeps_size :
    init_bdat_sysfs (env_remap_fails 5000) at_load =
      (-EFAULT, { bdat_virt := 0, bdat_size := 5000, bdat_attr_size := 0 },
        [Event.acpi_get_table true, Event.memremap 4096 4096 1048576,
         Event.memunmap 1048576, Event.memremap 4096 8192 0, Event.acpi_put_table]) ∧
    live_mappings (init_bdat_sysfs (env_remap_fails 5000) at_load).2.2 = [] := by
  decide

/-! ## Length of the re-mapping -/

/-- When the declared size `S` exceeds one page, the fourth kernel call of
`init_bdat_sysfs` is the re-map, at the same physical address and with length
`PAGE_ALIGN S`. -/
theorem remap_call (e : Env) (g : Globals) (t : acpi_table_header)
    (hget : e.acpi_get_table = some t) (hlen : t.length = 48) (hmap : first_map e t ≠ 0)
    (hsig : strncmp (fun i => e.vmem (first_map e t + i)) BDATHEAD 8 = 0)
    (hsz : declared_size e t > PAGE_SIZE) :
    ((init_bdat_sysfs e g).2.2).take 4 =
      [Event.acpi_get_table true, Event.memremap (phys_addr t) PAGE_SIZE (first_map e t),
       Event.memunmap (first_map e t),
       Event.memremap (phys_addr t) (PAGE_ALIGN (declared_size e t))
         (e.memremap (phys_addr t) (PAGE_ALIGN (declared_size e t)))] := by
  by_cases hre : e.memremap (phys_addr t) (PAGE_ALIGN (declared_size e t)) = 0
  · rw [init_remap_failed e g t hget hlen hmap hsig hsz hre]
    simp [hre]
  · rw [init_large e g t hget hlen hmap hsig hsz hre]
    simp [publish, label_done]
    split <;> simp [label_done]

/-- For a declared size `S` with `PAGE_SIZE < S ≤ 2 ^ 32 - PAGE_SIZE` the
length of the re-map is the least multiple of `PAGE_SIZE` that is at least
`S`. -/
theorem remap_length_ceiling (e : Env) (t : acpi_table_header)
    (hsz : declared_size e t + PAGE_SIZE ≤ 2 ^ 32) :
    PAGE_SIZE ∣ PAGE_ALIGN (declared_size e t) ∧
    declared_size e t ≤ PAGE_ALIGN (declared_size e t) ∧
    ∀ m, PAGE_SIZE ∣ m → declared_size e t ≤ m → PAGE_ALIGN (declared_size e t) ≤ m :=
  PAGE_ALIGN_ceiling (declared_size e t) hsz

/-- C8 (evaluation at the failing input): for the declared size
`S = 4294963201 = 2 ^ 32 - 4095`, which is a 32-bit value above `PAGE_SIZE`,
`PAGE_ALIGN S` is 0; `init_bdat_sysfs` re-maps with length 0, succeeds and
publishes 4294963201 bytes. -/
theorem remap_length_wraps_to_zero :
    PAGE_SIZE < 4294963201 ∧ 4294963201 < 2 ^ 32 ∧ PAGE_ALIGN 4294963201 = 0 ∧
    init_bdat_sysfs (env_with 48 sig_ok 4294963201 0) at_load =
      (0, { bdat_virt := 1048576, bdat_size := 4294963201, bdat_attr_size := 4294963201 },
        [Event.acpi_get_table true, Event.memremap 4096 4096 1048576,
         Event.memunmap 1048576, Event.memremap 4096 0 1048576,
         Event.sysfs_create_bin_file 4294963201 0, Event.acpi_put_table]) := by
  decide

end Bdat
